import Mathlib

/-! Verification development for the foundry-vtt-types declaration package.

The repository is a set of ambient TypeScript declarations describing the
public surface of the Foundry Virtual Tabletop host engine, together with
type-level tests (expectType and expectError assertions).  This file embeds
the type-level data model that those declarations and tests pin down:
the WallData constructor-data shape and its enumerated constant sets, the
ConfiguredDocumentClassOrDefault conditional type over the mergeable global
configuration interfaces, the AudioContainer declared defaults and buffer
threshold, the KeyboardManager declared state and movement-key map, the
Users collection declared default, and an inventory of the declaration
surface of the three classes present in the snapshot. -/

namespace FoundryTypes

namespace CONST

/-- Modelled from the spec: the numeric wall enumerations of foundry.CONST.
The constants declaration file (foundry.js constants) is referenced by the
module index but its source is not part of this repository snapshot.  Each
enumeration is modelled as the list of its numeric member values, with the
members named by the spec and by the wall-data type tests (NONE and NORMAL
for movement; NONE, LIMITED and NORMAL for sense; BOTH, LEFT and RIGHT for
direction; NONE, DOOR and SECRET for door type; CLOSED, OPEN and LOCKED for
door state) bound to named constants below. -/
def WALL_MOVEMENT_TYPES : List Int := [0, 1]

def WALL_MOVEMENT_TYPES.NONE : Int := 0

def WALL_MOVEMENT_TYPES.NORMAL : Int := 1

/-- Modelled from the spec: the WALL_SENSE_TYPES enumeration values. -/
def WALL_SENSE_TYPES : List Int := [0, 1, 2]

def WALL_SENSE_TYPES.NONE : Int := 0

def WALL_SENSE_TYPES.LIMITED : Int := 1

def WALL_SENSE_TYPES.NORMAL : Int := 2

/-- Modelled from the spec: the WALL_DIRECTIONS enumeration values. -/
def WALL_DIRECTIONS : List Int := [0, 1, 2]

def WALL_DIRECTIONS.BOTH : Int := 0

def WALL_DIRECTIONS.LEFT : Int := 1

def WALL_DIRECTIONS.RIGHT : Int := 2

/-- Modelled from the spec: the WALL_DOOR_TYPES enumeration values. -/
def WALL_DOOR_TYPES : List Int := [0, 1, 2]

def WALL_DOOR_TYPES.NONE : Int := 0

def WALL_DOOR_TYPES.DOOR : Int := 1

def WALL_DOOR_TYPES.SECRET : Int := 2

/-- Modelled from the spec: the WALL_DOOR_STATES enumeration values. -/
def WALL_DOOR_STATES : List Int := [0, 1, 2]

def WALL_DOOR_STATES.CLOSED : Int := 0

def WALL_DOOR_STATES.OPEN : Int := 1

def WALL_DOOR_STATES.LOCKED : Int := 2

end CONST

/-- Value supplied for an enumerated, optional and nullable field of the
WallData constructor data: the property may be omitted or set to undefined
(absent), set to null, or set to a number. -/
inductive EnumFieldValue
  | absent
  | null
  | num (value : Int)
deriving DecidableEq

/-- Value supplied for the optional nullable string field of the WallData
constructor data. -/
inductive IdFieldValue
  | absent
  | null
  | str (value : String)
deriving DecidableEq

/-- Value supplied for the optional nullable flags object of the WallData
constructor data: omitted or undefined, null, or an object literal. -/
inductive FlagsFieldValue
  | absent
  | null
  | obj
deriving DecidableEq

/-- Modelled from the spec: the constructor-data shape of
foundry.data.WallData.  The WallData declaration itself lives in the common
module, which is not part of this repository snapshot; its field set is the
one given by the spec (c as a four-number tuple, move, sense, sound, dir,
door, ds, flags, plus an optional id) and exercised by the expectType and
expectError assertions of the wall-data test file. -/
structure WallDataConstructorData where
  _id : IdFieldValue
  c : Option (List Int)
  move : EnumFieldValue
  sense : EnumFieldValue
  sound : EnumFieldValue
  dir : EnumFieldValue
  door : EnumFieldValue
  ds : EnumFieldValue
  flags : FlagsFieldValue
deriving DecidableEq

/-- Acceptance of an enumerated field value: omitted, undefined and null are
accepted; a number is accepted exactly when it belongs to the enumeration. -/
def enumFieldOk (v : EnumFieldValue) (allowed : List Int) : Bool :=
  match v with
  | .absent => true
  | .null => true
  | .num n => allowed.contains n

/-- Acceptance of the c coordinate field: it must be present and be a
four-number tuple. -/
def cFieldOk (c : Option (List Int)) : Bool :=
  match c with
  | none => false
  | some coords => coords.length == 4

/-- Modelled from the spec: whether a construction of foundry.data.WallData
type-checks.  The data argument is required (constructing with no argument
is rejected), c must be a four-number tuple, and each enumerated field, when
given a number, must draw it from the corresponding CONST enumeration. -/
def wallDataTypeChecks (data : Option WallDataConstructorData) : Bool :=
  match data with
  | none => false
  | some d =>
    cFieldOk d.c
      && enumFieldOk d.move CONST.WALL_MOVEMENT_TYPES
      && enumFieldOk d.sense CONST.WALL_SENSE_TYPES
      && enumFieldOk d.sound CONST.WALL_SENSE_TYPES
      && enumFieldOk d.dir CONST.WALL_DIRECTIONS
      && enumFieldOk d.door CONST.WALL_DOOR_TYPES
      && enumFieldOk d.ds CONST.WALL_DOOR_STATES

/-- Constructor data with every field omitted: the empty object literal. -/
def emptyWallInput : WallDataConstructorData :=
  ⟨.absent, none, .absent, .absent, .absent, .absent, .absent, .absent, .absent⟩

/-- Constructor data supplying only the c coordinate array. -/
def cOnlyWallInput (coords : List Int) : WallDataConstructorData :=
  ⟨.absent, some coords, .absent, .absent, .absent, .absent, .absent, .absent, .absent⟩

/-- Constructor data with the valid four-number tuple c and nothing else. -/
def validCWallInput : WallDataConstructorData :=
  cOnlyWallInput [10, 20, 30, 40]

/-- Constructor data supplying every field with a value drawn from the
corresponding CONST enumeration, as in the full expectType assertion of the
wall-data test file. -/
def fullWallInput : WallDataConstructorData :=
  ⟨.absent, some [10, 20, 30, 40],
   .num CONST.WALL_MOVEMENT_TYPES.NORMAL,
   .num CONST.WALL_SENSE_TYPES.NORMAL,
   .num CONST.WALL_SENSE_TYPES.NORMAL,
   .num CONST.WALL_DIRECTIONS.BOTH,
   .num CONST.WALL_DOOR_TYPES.NONE,
   .num CONST.WALL_DOOR_STATES.CLOSED,
   .obj⟩

/-- Enumerated wall fields of the WallData constructor data. -/
inductive WallEnumField
  | move
  | sense
  | sound
  | dir
  | door
  | ds
deriving DecidableEq

/-- Replace one enumerated wall field of the constructor data. -/
def setWallEnumField (d : WallDataConstructorData) (f : WallEnumField)
    (v : EnumFieldValue) : WallDataConstructorData :=
  match f with
  | .move => ⟨d._id, d.c, v, d.sense, d.sound, d.dir, d.door, d.ds, d.flags⟩
  | .sense => ⟨d._id, d.c, d.move, v, d.sound, d.dir, d.door, d.ds, d.flags⟩
  | .sound => ⟨d._id, d.c, d.move, d.sense, v, d.dir, d.door, d.ds, d.flags⟩
  | .dir => ⟨d._id, d.c, d.move, d.sense, d.sound, v, d.door, d.ds, d.flags⟩
  | .door => ⟨d._id, d.c, d.move, d.sense, d.sound, d.dir, v, d.ds, d.flags⟩
  | .ds => ⟨d._id, d.c, d.move, d.sense, d.sound, d.dir, d.door, v, d.flags⟩

/-- Document constructors are modelled by their metadata name together with
an identifying tag. -/
structure DocumentConstructorModel where
  metadataName : String
  classId : Nat
deriving DecidableEq

/-- Shallow embedding of the conditional type ConfiguredDocumentClassOrDefault
of the configuration file: given the document-class configuration (a partial
map from document names to configured classes, the model of the mergeable
DocumentClassConfig interface), the configured class is used when the
metadata name of the fallback is a key of the configuration, and the
fallback itself is used otherwise. -/
def ConfiguredDocumentClassOrDefault
    (documentClassConfig : String → Option DocumentConstructorModel)
    (fallback : DocumentConstructorModel) : DocumentConstructorModel :=
  match documentClassConfig fallback.metadataName with
  | some configured => configured
  | none => fallback

/-- The global DocumentClassConfig interface as declared in the repository:
empty, with no keys; downstream consumers extend it by declaration merging. -/
def DocumentClassConfig : String → Option DocumentConstructorModel :=
  fun _ => none

/-- The global DataConfig interface as declared: empty. -/
def DataConfig (Value : Type) : String → Option Value :=
  fun _ => none

/-- The global SourceConfig interface as declared: empty. -/
def SourceConfig (Value : Type) : String → Option Value :=
  fun _ => none

/-- The global FlagConfig interface as declared: empty. -/
def FlagConfig (Value : Type) : String → Option Value :=
  fun _ => none

/-- Sample configured document class used to witness the configuration
lookup. -/
def sampleConfiguredActor : DocumentConstructorModel := ⟨"Actor", 7⟩

/-- Sample fallback class whose metadata name is a key of the sample
configuration. -/
def sampleFallbackActor : DocumentConstructorModel := ⟨"Actor", 1⟩

/-- Sample fallback class whose metadata name is not a key of the sample
configuration. -/
def sampleFallbackItem : DocumentConstructorModel := ⟨"Item", 2⟩

/-- Sample merged document-class configuration holding one key. -/
def sampleDocumentClassConfig : String → Option DocumentConstructorModel :=
  fun name => if name = "Actor" then some sampleConfiguredActor else none

/-- Kinds of playback node an AudioContainer can hold: an
AudioBufferSourceNode or a streaming MediaElementAudioSourceNode. -/
inductive PlaybackNodeKind
  | audioBufferNode
  | mediaElementNode
deriving DecidableEq

namespace AudioContainer

/-- Maximum duration, in seconds, for which an AudioBuffer will be used;
declared in the AudioContainer file with default value 10 * 60. -/
def MAX_BUFFER_DURATION : ℚ := 10 * 60

/-- Modelled from the spec: the node-type selection policy of
AudioContainer.  The body of the node-creating method is not part of the
declaration file; the spec states the policy as: use a buffer for sources
whose duration is under ten minutes, else a streaming media element. -/
def selectPlaybackNode (duration : ℚ) : PlaybackNodeKind :=
  if duration < MAX_BUFFER_DURATION then .audioBufferNode else .mediaElementNode

end AudioContainer

/-- State of an AudioContainer, with one field per declared instance field
of the AudioContainer file.  The source and gain nodes are host objects
modelled by opaque tags; undefined is modelled by none. -/
structure AudioContainerState where
  src : String
  sourceNode : Option PlaybackNodeKind
  gainNode : Option Nat
  isBuffer : Bool
  loaded : Bool
  failed : Bool
  playing : Bool
  _loop : Bool
deriving DecidableEq

/-- Modelled from the spec: the AudioContainer constructor.  Its body is not
part of the declaration file; the initial value of each field follows the
defaultValue annotation on the corresponding declared field (sourceNode and
gainNode undefined, isBuffer, loaded, failed, playing and the loop flag all
false), and src stores the audio source path passed to the constructor. -/
def mkAudioContainer (src : String) : AudioContainerState :=
  ⟨src, none, none, false, false, false, false, false⟩

/-- State of a KeyboardManager, with one field per declared instance field
of the KeyboardManager file.  The three declared Set-of-string fields are
modelled by their contents as lists of key codes. -/
structure KeyboardManagerState where
  _downKeys : List String
  _handled : List String
  _moveKeys : List String
  _moveTime : Option Int
  _tabState : Nat
  _wheelTime : Int
deriving DecidableEq

/-- Modelled from the spec: the isDown method of KeyboardManager.  Its body
is not part of the declaration file; per its declared documentation it
returns whether the given key code is currently in the DOWN state, that is,
whether the code belongs to the set of depressed key codes. -/
def KeyboardManagerState.isDown (state : KeyboardManagerState)
    (code : String) : Bool :=
  state._downKeys.contains code

/-- Directions a movement key can map to. -/
inductive MoveDirection
  | up
  | down
  | left
  | right
deriving DecidableEq

namespace KeyboardManager

/-- Movement key map, transcribed entry by entry from the MOVEMENT_KEYS
static of the KeyboardManager file. -/
def MOVEMENT_KEYS : List (String × List MoveDirection) :=
  [("w", [.up]),
   ("a", [.left]),
   ("s", [.down]),
   ("d", [.right]),
   ("W", [.up]),
   ("A", [.left]),
   ("S", [.down]),
   ("D", [.right]),
   ("ArrowUp", [.up]),
   ("ArrowRight", [.right]),
   ("ArrowDown", [.down]),
   ("ArrowLeft", [.left]),
   ("Numpad1", [.down, .left]),
   ("Numpad2", [.down]),
   ("Numpad3", [.down, .right]),
   ("Numpad4", [.left]),
   ("Numpad6", [.right]),
   ("Numpad7", [.up, .left]),
   ("Numpad8", [.up]),
   ("Numpad9", [.up, .right])]

/-- The four diagonal numpad movement keys. -/
def diagonalNumpadKeys : List String :=
  ["Numpad1", "Numpad3", "Numpad7", "Numpad9"]

end KeyboardManager

/-- Stored User document of the configured User document class, modelled by
its id and a tag for the configured class. -/
structure StoredUserDocument where
  _id : String
  userClassId : Nat
deriving DecidableEq

/-- State of the Users world collection: the declared current field admits
only null (modelled by none) or a StoredDocument of the configured User
document class, and the collection holds its contained documents. -/
structure UsersCollectionState where
  current : Option StoredUserDocument
  contents : List StoredUserDocument
deriving DecidableEq

/-- Modelled from the spec: the Users collection constructor.  Its body is
not part of the declaration file; the declared current field carries the
defaultValue null annotation in the Users file, so a freshly constructed
collection starts with current equal to none, holding the optional
source-data array passed to the constructor. -/
def mkUsersCollection (data : List StoredUserDocument) : UsersCollectionState :=
  ⟨none, data⟩

/-- Kind of a declared member of an ambient class, interface or
namespace. -/
inductive DeclMemberKind
  | instanceField
  | staticField
  | getter
  | setter
  | method
  | staticMethod
  | ctor
  | property
  | nestedInterface
deriving DecidableEq

/-- Declared member of an ambient declaration: its name, its kind, and its
body, which is none when the declaration carries a signature only. -/
structure ClassMember where
  name : String
  kind : DeclMemberKind
  body : Option String
deriving DecidableEq

/-- Kind of an ambient type declaration. -/
inductive AmbientDeclKind
  | classDecl
  | interfaceDecl
  | namespaceDecl
deriving DecidableEq

/-- Declared ambient class, interface or namespace: its qualified name, its
kind, and its member list. -/
structure AmbientTypeDecl where
  declName : String
  kind : AmbientDeclKind
  members : List ClassMember
deriving DecidableEq

/-- Declaration surface of SquareGrid, transcribed member by member from its
file: eleven method signatures and nothing else, none with a body. -/
def SquareGridDecl : AmbientTypeDecl :=
  ⟨"SquareGrid", .classDecl,
   [⟨"draw", .method, none⟩,
    ⟨"_drawLine", .method, none⟩,
    ⟨"getCenter", .method, none⟩,
    ⟨"getGridPositionFromPixels", .method, none⟩,
    ⟨"getPixelsFromGridPosition", .method, none⟩,
    ⟨"getSnappedPosition", .method, none⟩,
    ⟨"shiftPosition", .method, none⟩,
    ⟨"_getNearestVertex", .method, none⟩,
    ⟨"highlightGridPosition", .method, none⟩,
    ⟨"measureDistances", .method, none⟩,
    ⟨"getNeighbors", .method, none⟩]⟩

/-- Declaration surface of AudioContainer, transcribed member by member from
its file: signatures only, none with a body. -/
def AudioContainerDecl : AmbientTypeDecl :=
  ⟨"AudioContainer", .classDecl,
   [⟨"constructor", .ctor, none⟩,
    ⟨"src", .instanceField, none⟩,
    ⟨"sourceNode", .instanceField, none⟩,
    ⟨"gainNode", .instanceField, none⟩,
    ⟨"isBuffer", .instanceField, none⟩,
    ⟨"loaded", .instanceField, none⟩,
    ⟨"failed", .instanceField, none⟩,
    ⟨"playing", .instanceField, none⟩,
    ⟨"_loop", .instanceField, none⟩,
    ⟨"loop", .getter, none⟩,
    ⟨"loop", .setter, none⟩,
    ⟨"MAX_BUFFER_DURATION", .staticField, none⟩,
    ⟨"buffer", .getter, none⟩,
    ⟨"context", .getter, none⟩,
    ⟨"duration", .getter, none⟩,
    ⟨"element", .getter, none⟩,
    ⟨"load", .method, none⟩,
    ⟨"_createNode", .method, none⟩,
    ⟨"_createAudioBuffer", .method, none⟩,
    ⟨"_createAudioBufferSourceNode", .method, none⟩,
    ⟨"_createAudioElement", .method, none⟩,
    ⟨"_createMediaElementAudioSourceNode", .method, none⟩,
    ⟨"play", .method, none⟩,
    ⟨"_configureNode", .method, none⟩,
    ⟨"stop", .method, none⟩,
    ⟨"_onEnd", .method, none⟩,
    ⟨"_unloadMediaNode", .method, none⟩]⟩

/-- Declaration surface of the KeyboardManager class, transcribed member by
member from its file: signatures only, none with a body. -/
def KeyboardManagerDecl : AmbientTypeDecl :=
  ⟨"KeyboardManager", .classDecl,
   [⟨"constructor", .ctor, none⟩,
    ⟨"_downKeys", .instanceField, none⟩,
    ⟨"_handled", .instanceField, none⟩,
    ⟨"_moveKeys", .instanceField, none⟩,
    ⟨"_moveTime", .instanceField, none⟩,
    ⟨"_tabState", .instanceField, none⟩,
    ⟨"_wheelTime", .instanceField, none⟩,
    ⟨"MOUSE_WHEEL_RATE_LIMIT", .staticField, none⟩,
    ⟨"DIGIT_KEYS", .staticField, none⟩,
    ⟨"MOVEMENT_KEYS", .staticField, none⟩,
    ⟨"ZOOM_KEYS", .staticField, none⟩,
    ⟨"_reset", .method, none⟩,
    ⟨"isDown", .method, none⟩,
    ⟨"isCtrl", .method, none⟩,
    ⟨"getKey", .method, none⟩,
    ⟨"moveKeys", .getter, none⟩,
    ⟨"digitKeys", .getter, none⟩,
    ⟨"zoomKeys", .getter, none⟩,
    ⟨"hasFocus", .getter, none⟩,
    ⟨"_onKeyDown", .method, none⟩,
    ⟨"_onKeyUp", .method, none⟩,
    ⟨"_handleKeys", .method, none⟩,
    ⟨"_onCompositionEnd", .method, none⟩,
    ⟨"_onWheel", .method, none⟩,
    ⟨"_onTab", .method, none⟩,
    ⟨"_onEscape", .method, none⟩,
    ⟨"_onSpace", .method, none⟩,
    ⟨"_onAlt", .method, none⟩,
    ⟨"_onMovement", .method, none⟩,
    ⟨"_handleMovement", .method, none⟩,
    ⟨"_handleCanvasPan", .method, none⟩,
    ⟨"_onDigit", .method, none⟩,
    ⟨"_onKeyA", .method, none⟩,
    ⟨"_onKeyC", .method, none⟩,
    ⟨"_onKeyV", .method, none⟩,
    ⟨"_onKeyZ", .method, none⟩,
    ⟨"_onKeyZoom", .method, none⟩,
    ⟨"_onDelete", .method, none⟩]⟩

/-- Declaration surface of the Users class, transcribed member by member
from its file: signatures only, none with a body. -/
def UsersDecl : AmbientTypeDecl :=
  ⟨"Users", .classDecl,
   [⟨"constructor", .ctor, none⟩,
    ⟨"current", .instanceField, none⟩,
    ⟨"_initialize", .method, none⟩,
    ⟨"documentName", .staticField, none⟩,
    ⟨"players", .getter, none⟩,
    ⟨"_activateSocketListeners", .staticMethod, none⟩,
    ⟨"_handleUserActivity", .staticMethod, none⟩]⟩

/-- The mergeable global DocumentClassConfig interface, declared empty. -/
def DocumentClassConfigDecl : AmbientTypeDecl :=
  ⟨"DocumentClassConfig", .interfaceDecl, []⟩

/-- The mergeable global DataConfig interface, declared empty. -/
def DataConfigDecl : AmbientTypeDecl :=
  ⟨"DataConfig", .interfaceDecl, []⟩

/-- The mergeable global SourceConfig interface, declared empty. -/
def SourceConfigDecl : AmbientTypeDecl :=
  ⟨"SourceConfig", .interfaceDecl, []⟩

/-- The mergeable global FlagConfig interface, declared empty. -/
def FlagConfigDecl : AmbientTypeDecl :=
  ⟨"FlagConfig", .interfaceDecl, []⟩

/-- Declaration surface of the global CONFIG interface, transcribed property
by property from the config file: property signatures only, none with a
body. -/
def CONFIGInterfaceDecl : AmbientTypeDecl :=
  ⟨"CONFIG", .interfaceDecl,
   [⟨"debug", .property, none⟩,
    ⟨"DatabaseBackend", .property, none⟩,
    ⟨"Actor", .property, none⟩,
    ⟨"ChatMessage", .property, none⟩,
    ⟨"Combat", .property, none⟩,
    ⟨"Dice", .property, none⟩,
    ⟨"FogExploration", .property, none⟩,
    ⟨"Folder", .property, none⟩,
    ⟨"Item", .property, none⟩,
    ⟨"JournalEntry", .property, none⟩,
    ⟨"Macro", .property, none⟩,
    ⟨"Playlist", .property, none⟩,
    ⟨"RollTable", .property, none⟩,
    ⟨"Scene", .property, none⟩,
    ⟨"Setting", .property, none⟩,
    ⟨"User", .property, none⟩,
    ⟨"Canvas", .property, none⟩,
    ⟨"canvasTextStyle", .property, none⟩,
    ⟨"weatherEffects", .property, none⟩,
    ⟨"controlIcons", .property, none⟩,
    ⟨"fontFamilies", .property, none⟩,
    ⟨"defaultFontFamily", .property, none⟩,
    ⟨"statusEffects", .property, none⟩,
    ⟨"sounds", .property, none⟩,
    ⟨"supportedLanguages", .property, none⟩,
    ⟨"time", .property, none⟩,
    ⟨"ActiveEffect", .property, none⟩,
    ⟨"TableResult", .property, none⟩,
    ⟨"PlaylistSound", .property, none⟩,
    ⟨"AmbientLight", .property, none⟩,
    ⟨"AmbientSound", .property, none⟩,
    ⟨"Combatant", .property, none⟩,
    ⟨"Drawing", .property, none⟩,
    ⟨"MeasuredTemplate", .property, none⟩,
    ⟨"Note", .property, none⟩,
    ⟨"Tile", .property, none⟩,
    ⟨"Token", .property, none⟩,
    ⟨"Wall", .property, none⟩,
    ⟨"TinyMCE", .property, none⟩,
    ⟨"WebRTC", .property, none⟩,
    ⟨"ui", .property, none⟩]⟩

/-- The global CONFIG namespace, which contains only the nested UI
interface. -/
def CONFIGNamespaceDecl : AmbientTypeDecl :=
  ⟨"CONFIG", .namespaceDecl, [⟨"UI", .nestedInterface, none⟩]⟩

/-- Declaration surface of the CONFIG.UI interface, transcribed property by
property from the config file: property signatures only, none with a
body. -/
def CONFIG_UIDecl : AmbientTypeDecl :=
  ⟨"CONFIG.UI", .interfaceDecl,
   [⟨"menu", .property, none⟩,
    ⟨"sidebar", .property, none⟩,
    ⟨"pause", .property, none⟩,
    ⟨"nav", .property, none⟩,
    ⟨"notifications", .property, none⟩,
    ⟨"actors", .property, none⟩,
    ⟨"chat", .property, none⟩,
    ⟨"combat", .property, none⟩,
    ⟨"compendium", .property, none⟩,
    ⟨"controls", .property, none⟩,
    ⟨"hotbar", .property, none⟩,
    ⟨"items", .property, none⟩,
    ⟨"journal", .property, none⟩,
    ⟨"macros", .property, none⟩,
    ⟨"players", .property, none⟩,
    ⟨"playlists", .property, none⟩,
    ⟨"scenes", .property, none⟩,
    ⟨"settings", .property, none⟩,
    ⟨"tables", .property, none⟩,
    ⟨"webrtc", .property, none⟩]⟩

/-- The KeyboardManager namespace, which contains only the nested
MetaModifiers interface. -/
def KeyboardManagerNamespaceDecl : AmbientTypeDecl :=
  ⟨"KeyboardManager", .namespaceDecl,
   [⟨"MetaModifiers", .nestedInterface, none⟩]⟩

/-- Declaration surface of the KeyboardManager.MetaModifiers interface,
transcribed property by property from the KeyboardManager file: property
signatures only, none with a body. -/
def MetaModifiersDecl : AmbientTypeDecl :=
  ⟨"KeyboardManager.MetaModifiers", .interfaceDecl,
   [⟨"key", .property, none⟩,
    ⟨"isShift", .property, none⟩,
    ⟨"isCtrl", .property, none⟩,
    ⟨"isAlt", .property, none⟩,
    ⟨"hasFocus", .property, none⟩,
    ⟨"hasModifier", .property, none⟩]⟩

/-- Every class, interface and namespace declared in this repository
snapshot: the classes SquareGrid and the configuration declarations of the
config file, AudioContainer, KeyboardManager with its namespace and nested
MetaModifiers interface, and Users.  The two remaining files are type-level
test files that declare nothing, and the module index only references other
modules. -/
def ambientDecls : List AmbientTypeDecl :=
  [SquareGridDecl, AudioContainerDecl, KeyboardManagerDecl, UsersDecl,
   DocumentClassConfigDecl, DataConfigDecl, SourceConfigDecl, FlagConfigDecl,
   CONFIGInterfaceDecl, CONFIGNamespaceDecl, CONFIG_UIDecl,
   KeyboardManagerNamespaceDecl, MetaModifiersDecl]

/-- Module index of the package, transcribed from the index file: the list
of the relative paths of its import declarations, which are the only
statements the index contains. -/
def moduleIndexImportPaths : List String :=
  ["./common/module.mjs",
   "./foundry.js/application",
   "./foundry.js/audioContainer",
   "./foundry.js/audioHelper",
   "./foundry.js/avClient",
   "./foundry.js/avMaster",
   "./foundry.js/avSettings",
   "./foundry.js/cameraPopoutAppWrapper",
   "./foundry.js/canvas",
   "./foundry.js/canvasAnimation",
   "./foundry.js/canvasDocumentMixin",
   "./foundry.js/chatBubbles",
   "./foundry.js/clientDocumentMixin",
   "./foundry.js/clientSettings",
   "./foundry.js/config",
   "./foundry.js/constants",
   "./foundry.js/contextMenu",
   "./foundry.js/dragDrop",
   "./foundry.js/draggable",
   "./foundry.js/features",
   "./foundry.js/fonts",
   "./foundry.js/formDataExtended",
   "./foundry.js/game",
   "./foundry.js/gameTime",
   "./foundry.js/globalVariables",
   "./foundry.js/handlebarsHelpers",
   "./foundry.js/hooks",
   "./foundry.js/imageHelper",
   "./foundry.js/keyboardManager",
   "./foundry.js/localization",
   "./foundry.js/mersenneTwister",
   "./foundry.js/mouseInteractionManager",
   "./foundry.js/perceptionManager",
   "./foundry.js/pointSource",
   "./foundry.js/quadtree",
   "./foundry.js/ray",
   "./foundry.js/roll",
   "./foundry.js/searchFilter",
   "./foundry.js/specialEffect",
   "./foundry.js/socketInterface",
   "./foundry.js/sortingHelpers",
   "./foundry.js/sound",
   "./foundry.js/tabs",
   "./foundry.js/templateUtils",
   "./foundry.js/textEditor",
   "./foundry.js/textureLoader",
   "./foundry.js/textureUtils",
   "./foundry.js/types",
   "./foundry.js/userTargets",
   "./foundry.js/utils",
   "./foundry.js/videoHelper",
   "./foundry.js/applications",
   "./foundry.js/avClients/easyRTCClient",
   "./foundry.js/clientDocuments/activeEffect",
   "./foundry.js/clientDocuments/actor",
   "./foundry.js/clientDocuments/canvasDocuments/ambientLightDocument",
   "./foundry.js/clientDocuments/canvasDocuments/ambientSoundDocument",
   "./foundry.js/clientDocuments/canvasDocuments/drawingDocument",
   "./foundry.js/clientDocuments/canvasDocuments/measuredTemplateDocument",
   "./foundry.js/clientDocuments/canvasDocuments/noteDocument",
   "./foundry.js/clientDocuments/canvasDocuments/tileDocument",
   "./foundry.js/clientDocuments/canvasDocuments/tokenDocument",
   "./foundry.js/clientDocuments/canvasDocuments/wallDocument",
   "./foundry.js/clientDocuments/chatMessage",
   "./foundry.js/clientDocuments/combat",
   "./foundry.js/clientDocuments/combatant",
   "./foundry.js/clientDocuments/fogExploration",
   "./foundry.js/clientDocuments/folder",
   "./foundry.js/clientDocuments/item",
   "./foundry.js/clientDocuments/journalEntry",
   "./foundry.js/clientDocuments/macro",
   "./foundry.js/clientDocuments/playlist",
   "./foundry.js/clientDocuments/rollTable",
   "./foundry.js/clientDocuments/scene",
   "./foundry.js/clientDocuments/setting",
   "./foundry.js/clientDocuments/user",
   "./foundry.js/collections",
   "./foundry.js/rollTerm",
   "./foundry.js/rollTerms/diceTerm",
   "./foundry.js/rollTerms/mathTerm",
   "./foundry.js/rollTerms/numericTerm",
   "./foundry.js/rollTerms/operatorTerm",
   "./foundry.js/rollTerms/parentheticalTerm",
   "./foundry.js/rollTerms/poolTerm",
   "./foundry.js/rollTerms/stringTerm",
   "./foundry.js/rollTerms/diceTerms/coin",
   "./foundry.js/rollTerms/diceTerms/die",
   "./foundry.js/rollTerms/diceTerms/fateDie",
   "./foundry.js/pixi",
   "./foundry.js/specialEffects/autumnLeavesWeatherEffect",
   "./foundry.js/specialEffects/rainWeatherEffect",
   "./foundry.js/specialEffects/snowWeatherEffect"]

/-- C1: constructing foundry.data.WallData with no argument, with an empty
object, or with a c coordinate array of only two numbers is rejected by the
type checker, while constructing it with a four-number tuple c type-checks
and yields a WallData. -/
theorem wallData_requires_four_number_c :
    wallDataTypeChecks none = false
      ∧ wallDataTypeChecks (some emptyWallInput) = false
      ∧ wallDataTypeChecks (some (cOnlyWallInput [10, 20])) = false
      ∧ wallDataTypeChecks (some (cOnlyWallInput [10, 20, 30, 40])) = true :=
  ⟨rfl, rfl, rfl, rfl⟩

/-- C2: for every one of the enumerated wall fields move, sense, sound, dir,
door and ds, constructing WallData with that field set to the out-of-range
value 9999 fails to type-check, even when c is the valid four-number tuple
10, 20, 30, 40. -/
theorem wallData_rejects_out_of_range_enum (f : WallEnumField) :
    wallDataTypeChecks
        (some (setWallEnumField validCWallInput f (.num 9999))) = false := by
  cases f <;> rfl

/-- C3: the WallData constructor-data shape consists of the fields c, move,
sense, sound, dir, door, ds and flags plus an id, and the construction that
supplies every one of these fields with values drawn from the corresponding
CONST enumerations (movement NORMAL, sense NORMAL for sense and sound,
direction BOTH, door type NONE, door state CLOSED, empty flags object)
type-checks as a WallData. -/
theorem wallData_full_enumerated_construction :
    fullWallInput.c = some [10, 20, 30, 40]
      ∧ fullWallInput.move = .num CONST.WALL_MOVEMENT_TYPES.NORMAL
      ∧ fullWallInput.sense = .num CONST.WALL_SENSE_TYPES.NORMAL
      ∧ fullWallInput.sound = .num CONST.WALL_SENSE_TYPES.NORMAL
      ∧ fullWallInput.dir = .num CONST.WALL_DIRECTIONS.BOTH
      ∧ fullWallInput.door = .num CONST.WALL_DOOR_TYPES.NONE
      ∧ fullWallInput.ds = .num CONST.WALL_DOOR_STATES.CLOSED
      ∧ fullWallInput.flags = .obj
      ∧ wallDataTypeChecks (some fullWallInput) = true :=
  ⟨rfl, rfl, rfl, rfl, rfl, rfl, rfl, rfl, rfl⟩

/-- C4: ConfiguredDocumentClassOrDefault yields the configured class when
the metadata name of the fallback is a key of the document-class
configuration and the fallback itself otherwise, and the four global
configuration interfaces DocumentClassConfig, DataConfig, SourceConfig and
FlagConfig are declared empty, to be extended by declaration merging. -/
theorem configuredDocumentClassOrDefault_spec :
    (∀ (config : String → Option DocumentConstructorModel)
        (fallback configured : DocumentConstructorModel),
        config fallback.metadataName = some configured →
          ConfiguredDocumentClassOrDefault config fallback = configured)
      ∧ (∀ (config : String → Option DocumentConstructorModel)
          (fallback : DocumentConstructorModel),
          config fallback.metadataName = none →
            ConfiguredDocumentClassOrDefault config fallback = fallback)
      ∧ (∀ name : String, DocumentClassConfig name = none)
      ∧ (∀ (Value : Type) (name : String), DataConfig Value name = none)
      ∧ (∀ (Value : Type) (name : String), SourceConfig Value name = none)
      ∧ (∀ (Value : Type) (name : String), FlagConfig Value name = none) := by
  refine ⟨?_, ?_, fun _ => rfl, fun _ _ => rfl, fun _ _ => rfl, fun _ _ => rfl⟩
  · intro config fallback configured h
    simp [ConfiguredDocumentClassOrDefault, h]
  · intro config fallback h
    simp [ConfiguredDocumentClassOrDefault, h]

/-- Witness for C4: on a sample one-key configuration, the lookup picks the
configured Actor class for a fallback named Actor and falls back for a
fallback named Item. -/
theorem configuredDocumentClassOrDefault_spec_witness :
    ConfiguredDocumentClassOrDefault sampleDocumentClassConfig
        sampleFallbackActor = sampleConfiguredActor
      ∧ ConfiguredDocumentClassOrDefault sampleDocumentClassConfig
          sampleFallbackItem = sampleFallbackItem :=
  ⟨configuredDocumentClassOrDefault_spec.1 sampleDocumentClassConfig
      sampleFallbackActor sampleConfiguredActor rfl,
   configuredDocumentClassOrDefault_spec.2.1 sampleDocumentClassConfig
      sampleFallbackItem rfl⟩

/-- C5: AudioContainer selects its playback node by a duration threshold:
an AudioBuffer is used exactly for durations under the static threshold
MAX_BUFFER_DURATION, a streaming media element otherwise, and the threshold
equals 10 * 60 = 600 seconds. -/
theorem audioContainer_buffer_threshold :
    AudioContainer.MAX_BUFFER_DURATION = 600
      ∧ ∀ duration : ℚ,
          (AudioContainer.selectPlaybackNode duration = .audioBufferNode
            ↔ duration < AudioContainer.MAX_BUFFER_DURATION)
          ∧ (AudioContainer.selectPlaybackNode duration = .mediaElementNode
            ↔ ¬duration < AudioContainer.MAX_BUFFER_DURATION) := by
  constructor
  · norm_num [AudioContainer.MAX_BUFFER_DURATION]
  · intro d
    by_cases h : d < AudioContainer.MAX_BUFFER_DURATION <;>
      simp [AudioContainer.selectPlaybackNode, h]

/-- C6: the repository contains no executable logic of its own: every
member of every class, interface and namespace it declares (the classes
SquareGrid, AudioContainer, KeyboardManager and Users, the global
DocumentClassConfig, DataConfig, SourceConfig, FlagConfig, CONFIG and
CONFIG.UI interfaces, the KeyboardManager.MetaModifiers interface, and the
CONFIG and KeyboardManager namespaces) is an ambient signature with no
body, and the module index consists solely of references to relative
module paths. -/
theorem ambient_declarations_have_no_bodies :
    (ambientDecls.all fun decl =>
        decl.members.all fun m => m.body == none) = true
      ∧ ambientDecls.map (fun decl => (decl.declName, decl.kind))
          = [("SquareGrid", .classDecl),
             ("AudioContainer", .classDecl),
             ("KeyboardManager", .classDecl),
             ("Users", .classDecl),
             ("DocumentClassConfig", .interfaceDecl),
             ("DataConfig", .interfaceDecl),
             ("SourceConfig", .interfaceDecl),
             ("FlagConfig", .interfaceDecl),
             ("CONFIG", .interfaceDecl),
             ("CONFIG", .namespaceDecl),
             ("CONFIG.UI", .interfaceDecl),
             ("KeyboardManager", .namespaceDecl),
             ("KeyboardManager.MetaModifiers", .interfaceDecl)]
      ∧ (moduleIndexImportPaths.all fun p => p.take 2 == "./") = true :=
  ⟨by decide, rfl, by decide⟩

/-- C7: KeyboardManager keeps the depressed, handled and pending-movement
key codes as sets of strings, and isDown reports, for every string key
code, whether that code is currently in the DOWN state, that is, whether it
belongs to the set of depressed key codes. -/
theorem keyboardManager_isDown_reports_down_state :
    ∀ (state : KeyboardManagerState) (code : String),
      state.isDown code = true ↔ code ∈ state._downKeys := by
  intro state code
  simp [KeyboardManagerState.isDown]

/-- C8: a freshly constructed AudioContainer starts in the not-loaded,
not-failed, not-playing state: loaded, failed, playing, isBuffer and the
loop flag are all false, the source and gain nodes are undefined, and src
holds the audio source path passed to the constructor. -/
theorem audioContainer_initial_state (source : String) :
    (mkAudioContainer source).loaded = false
      ∧ (mkAudioContainer source).failed = false
      ∧ (mkAudioContainer source).playing = false
      ∧ (mkAudioContainer source).isBuffer = false
      ∧ (mkAudioContainer source)._loop = false
      ∧ (mkAudioContainer source).sourceNode = none
      ∧ (mkAudioContainer source).gainNode = none
      ∧ (mkAudioContainer source).src = source :=
  ⟨rfl, rfl, rfl, rfl, rfl, rfl, rfl, rfl⟩

/-- C9: the movement key map has exactly the twenty declared keys; every
key maps to a non-empty direction list; exactly the four diagonal numpad
keys Numpad1, Numpad3, Numpad7 and Numpad9 map to a two-direction list;
and every other movement key maps to a single direction. -/
theorem movementKeys_direction_shape :
    KeyboardManager.MOVEMENT_KEYS.map Prod.fst
        = ["w", "a", "s", "d", "W", "A", "S", "D", "ArrowUp", "ArrowRight",
           "ArrowDown", "ArrowLeft", "Numpad1", "Numpad2", "Numpad3",
           "Numpad4", "Numpad6", "Numpad7", "Numpad8", "Numpad9"]
      ∧ (KeyboardManager.MOVEMENT_KEYS.all fun entry =>
          !entry.2.isEmpty) = true
      ∧ (KeyboardManager.MOVEMENT_KEYS.all fun entry =>
          (entry.2.length == 2)
            == KeyboardManager.diagonalNumpadKeys.contains entry.1) = true
      ∧ (KeyboardManager.MOVEMENT_KEYS.all fun entry =>
          KeyboardManager.diagonalNumpadKeys.contains entry.1
            || (entry.2.length == 1)) = true :=
  ⟨rfl, by decide, by decide, by decide⟩

/-- C10: the current field of a freshly constructed Users collection
defaults to null, and its type admits only null or a stored document of the
configured User document class. -/
theorem users_current_defaults_to_null (data : List StoredUserDocument) :
    (mkUsersCollection data).current = none
      ∧ ∀ state : UsersCollectionState,
          state.current = none ∨ ∃ doc, state.current = some doc := by
  refine ⟨rfl, fun state => ?_⟩
  cases h : state.current with
  | none => exact Or.inl rfl
  | some doc => exact Or.inr ⟨doc, rfl⟩

end FoundryTypes
